import Mathlib

/-!
Shallow embedding of the `monkey` repository (a Python port of the Monkey
interpreter and bytecode compiler/VM) for checking its natural-language
specification.  Definitions are translated from the Python sources under
`monkey/`: `code.py`, `object.py`, `symbol_table.py`, `builtins.py`,
`compiler.py`, `vm.py`, and the hash-handling parts of `evaluator.py`.

Conventions used throughout:
* Python `None` is `Option.none`; fallible operations return `Except Fault _`.
* `Fault.vmError msg` models a `VmError` *returned as a value* by the VM
  (vm.py returns errors, it does not raise them);
  `Fault.hostError kind` models an uncaught Python exception of class `kind`
  (IndexError, TypeError, AttributeError, ValueError, ZeroDivisionError, ...).
* Python `list`/`bytearray` indexing supports negative indices (wrapping once)
  and raises IndexError out of range; slicing clamps.  `pyGet`, `pySet` and
  `pySlice` reproduce this.
* Machine integers are `Int`/`Nat` (Python ints are unbounded, so no overflow
  modelling is needed).
-/

namespace Monkey

/-- Errors that abort execution: a `VmError` value returned by vm.py, or an
uncaught Python exception (identified by its class name). -/
inductive Fault where
  | vmError (msg : String)
  | hostError (kind : String)
deriving DecidableEq, Repr

/-- Python list read `l[i]`: negative indices wrap once from the end;
anything else raises IndexError. -/
def pyGet {α : Type} (l : List α) (i : Int) : Except Fault α :=
  if h : 0 ≤ i ∧ i < (l.length : Int) then
    .ok (l.get ⟨i.toNat, by omega⟩)
  else if h' : -(l.length : Int) ≤ i ∧ i < 0 then
    .ok (l.get ⟨(i + l.length).toNat, by omega⟩)
  else
    .error (.hostError "IndexError")

/-- Python list item assignment `l[i] = v`: negative indices wrap once;
anything else raises IndexError. -/
def pySet {α : Type} (l : List α) (i : Int) (v : α) : Except Fault (List α) :=
  if 0 ≤ i ∧ i < (l.length : Int) then
    .ok (l.set i.toNat v)
  else if -(l.length : Int) ≤ i ∧ i < 0 then
    .ok (l.set (i + l.length).toNat v)
  else
    .error (.hostError "IndexError")

/-- Python slice `l[a:b]` (step 1, non-negative bounds): clamps, never fails.
The VM only slices with non-negative bounds (`ip+1`, `ip+3`, ...). -/
def pySlice {α : Type} (l : List α) (a b : Int) : List α :=
  let a' := if a ≤ 0 then 0 else a.toNat
  let b' := if b ≤ 0 then 0 else b.toNat
  (l.take b').drop a'

/-! ## code.py: opcodes, operand widths, `make`, operand readers -/

/-- The `Opcode` enum of code.py (byte values 0x01..0x1E). -/
inductive Opcode where
  | OpConstant | OpPop | OpAdd | OpSub | OpMul | OpDiv
  | OpTrue | OpFalse | OpEqual | OpNotEqual | OpGreaterThan
  | OpMinus | OpBang | OpJumpNotTruthy | OpJump | OpNull
  | OpSetGlobal | OpGetGlobal | OpArray | OpHash | OpIndex
  | OpCall | OpReturnValue | OpReturn | OpSetLocal | OpGetLocal
  | OpGetBuiltin | OpGetFree | OpClosure | OpCurrentClosure
deriving DecidableEq, Repr

namespace Opcode

/-- The byte value of each opcode, as declared in the `Opcode` enum. -/
def byte : Opcode → Nat
  | .OpConstant => 0x01 | .OpPop => 0x02 | .OpAdd => 0x03 | .OpSub => 0x04
  | .OpMul => 0x05 | .OpDiv => 0x06 | .OpTrue => 0x07 | .OpFalse => 0x08
  | .OpEqual => 0x09 | .OpNotEqual => 0x0A | .OpGreaterThan => 0x0B
  | .OpMinus => 0x0C | .OpBang => 0x0D | .OpJumpNotTruthy => 0x0E
  | .OpJump => 0x0F | .OpNull => 0x10 | .OpSetGlobal => 0x11
  | .OpGetGlobal => 0x12 | .OpArray => 0x13 | .OpHash => 0x14
  | .OpIndex => 0x15 | .OpCall => 0x16 | .OpReturnValue => 0x17
  | .OpReturn => 0x18 | .OpSetLocal => 0x19 | .OpGetLocal => 0x1A
  | .OpGetBuiltin => 0x1B | .OpGetFree => 0x1C | .OpClosure => 0x1D
  | .OpCurrentClosure => 0x1E

/-- `Opcode(b)` on a byte: the enum member with that value, or a ValueError.
Inverse of `byte`. -/
def decode (b : Nat) : Option Opcode :=
  match b with
  | 0x01 => some .OpConstant | 0x02 => some .OpPop | 0x03 => some .OpAdd
  | 0x04 => some .OpSub | 0x05 => some .OpMul | 0x06 => some .OpDiv
  | 0x07 => some .OpTrue | 0x08 => some .OpFalse | 0x09 => some .OpEqual
  | 0x0A => some .OpNotEqual | 0x0B => some .OpGreaterThan
  | 0x0C => some .OpMinus | 0x0D => some .OpBang
  | 0x0E => some .OpJumpNotTruthy | 0x0F => some .OpJump
  | 0x10 => some .OpNull | 0x11 => some .OpSetGlobal
  | 0x12 => some .OpGetGlobal | 0x13 => some .OpArray
  | 0x14 => some .OpHash | 0x15 => some .OpIndex | 0x16 => some .OpCall
  | 0x17 => some .OpReturnValue | 0x18 => some .OpReturn
  | 0x19 => some .OpSetLocal | 0x1A => some .OpGetLocal
  | 0x1B => some .OpGetBuiltin | 0x1C => some .OpGetFree
  | 0x1D => some .OpClosure | 0x1E => some .OpCurrentClosure
  | _ => none

/-- The `str()` rendering of an `Opcode` enum member (used in VM error
messages via f-strings). -/
def pyStr (op : Opcode) : String := "Opcode." ++ (((repr op).pretty.splitOn ".").getLastD "")

/-- `definitions[op].operand_widths` from code.py. -/
def operandWidths : Opcode → List Nat
  | .OpConstant => [2] | .OpJumpNotTruthy => [2] | .OpJump => [2]
  | .OpSetGlobal => [2] | .OpGetGlobal => [2] | .OpArray => [2]
  | .OpHash => [2] | .OpCall => [1] | .OpSetLocal => [1]
  | .OpGetLocal => [1] | .OpGetBuiltin => [1] | .OpGetFree => [1]
  | .OpClosure => [2, 1]
  | _ => []

end Opcode

/-- `o.to_bytes(width, byteorder='big')` for the widths used by `make`
(1 or 2); operands in compiled programs always fit their width. -/
def toBytesBE (width o : Nat) : List Nat :=
  match width with
  | 1 => [o % 256]
  | 2 => [o / 256 % 256, o % 256]
  | _ => []

/-- `code.make(op, *operands)`: opcode byte followed by each operand encoded
with its declared width (big-endian). -/
def make (op : Opcode) (operands : List Nat) : List Nat :=
  op.byte :: ((op.operandWidths.zip operands).flatMap fun wo => toBytesBE wo.1 wo.2)

/-- `int.from_bytes(bs, byteorder='big')` (code.read_uint8 / read_uint16 /
inline operand reads in vm.py); an empty byte string reads as 0. -/
def fromBytesBE (bs : List Nat) : Nat :=
  bs.foldl (fun acc b => acc * 256 + b) 0

/-! ## object.py: the runtime object model

The claims only exercise the compiler/VM object set plus `ErrorObject`,
so the tree-walker-only variants (`FunctionObject`, `ReturnValue`,
`QuoteObject`) are not embedded. -/

/-- `CompiledFunction` from object.py. -/
structure CompiledFunction where
  instructions : List Nat
  numLocals : Nat
  numParameters : Nat
deriving DecidableEq, Repr

/-- The runtime objects of object.py.  `builtin` carries the builtin's
registration name (BuiltinObject holds a function pointer; builtins are
singletons, so the name identifies it). -/
inductive Object where
  | integer (value : Int)
  | string (value : String)
  | boolean (value : Bool)
  | null
  | array (elements : List Object)
  | hash (pairs : List (Object × Object))
  | compiledFn (fn : CompiledFunction)
  | builtin (name : String)
  | error (message : String)
deriving Repr

mutual

/-- Python `==` on objects: the `@dataclass` structural equality of
object.py (class mismatch compares unequal; `HashObject` compares its
`pairs` dicts key-wise, order-independent). -/
def objEq : Object → Object → Bool
  | .integer a, .integer b => a == b
  | .string a, .string b => a == b
  | .boolean a, .boolean b => a == b
  | .null, .null => true
  | .array xs, .array ys => objEqList xs ys
  | .hash ps, .hash qs => ps.length == qs.length && dictSubsetEq ps qs
  | .compiledFn f, .compiledFn g => f == g
  | .builtin a, .builtin b => a == b
  | .error a, .error b => a == b
  | _, _ => false

/-- Element-wise `==` of Python lists of objects. -/
def objEqList : List Object → List Object → Bool
  | [], [] => true
  | x :: xs, y :: ys => objEq x y && objEqList xs ys
  | _, _ => false

/-- Each entry of the first dict is present (same key, `==` value) in the
second; keys stored in a dict are unique. -/
def dictSubsetEq : List (Object × Object) → List (Object × Object) → Bool
  | [], _ => true
  | (k, v) :: rest, qs => dictEntryEq k v qs && dictSubsetEq rest qs

/-- Key `k` maps to a value `==` to `v` in the dict. -/
def dictEntryEq : Object → Object → List (Object × Object) → Bool
  | _, _, [] => false
  | k, v, (k2, v2) :: rest => if objEq k k2 then objEq v v2 else dictEntryEq k v rest

end

/-- `isinstance(obj, Hashable)`: exactly the object.py classes defining
`__hash__` (IntegerObject, StringObject, BooleanObject); every other class
is a `@dataclass` with `eq=True`, which sets `__hash__ = None`. -/
def hashable : Object → Bool
  | .integer _ => true
  | .string _ => true
  | .boolean _ => true
  | _ => false

/-- The f-string rendering of `obj.objtype()` (an `ObjectType` enum member),
as it appears in error messages. -/
def objtypeStr : Object → String
  | .integer _ => "ObjectType.INTEGER_OBJ"
  | .string _ => "ObjectType.STRING_OBJ"
  | .boolean _ => "ObjectType.BOOLEAN_OBJ"
  | .null => "ObjectType.NULL_OBJ"
  | .array _ => "ObjectType.ARRAY_OBJ"
  | .hash _ => "ObjectType.HASH_OBJ"
  | .compiledFn _ => "ObjectType.COMPILED_FUNCTION_OBJ"
  | .builtin _ => "ObjectType.BUILTIN_OBJ"
  | .error _ => "ObjectType.ERROR_OBJ"

/-- The f-string rendering of `type(x)` for a stack slot (used by the VM's
`index operator not supported` message). -/
def pyTypeStr : Option Object → String
  | none => "<class 'NoneType'>"
  | some (.integer _) => "<class 'monkey.object.IntegerObject'>"
  | some (.string _) => "<class 'monkey.object.StringObject'>"
  | some (.boolean _) => "<class 'monkey.object.BooleanObject'>"
  | some .null => "<class 'monkey.object.NullObject'>"
  | some (.array _) => "<class 'monkey.object.ArrayObject'>"
  | some (.hash _) => "<class 'monkey.object.HashObject'>"
  | some (.compiledFn _) => "<class 'monkey.object.CompiledFunction'>"
  | some (.builtin _) => "<class 'monkey.object.BuiltinObject'>"
  | some (.error _) => "<class 'monkey.object.ErrorObject'>"

/-- Python `==` on optional values (stack slots): `None == None` is true,
`None == obj` is false. -/
def pyEq : Option Object → Option Object → Bool
  | none, none => true
  | some a, some b => objEq a b
  | _, _ => false

/-- Python dict assignment `d[k] = v` for a key already known hashable:
updating an existing (`==`) key keeps the stored key object and replaces
the value; a new key is appended (insertion order). -/
def dictSet : List (Object × Object) → Object → Object → List (Object × Object)
  | [], k, v => [(k, v)]
  | (k2, v2) :: rest, k, v =>
      if objEq k k2 then (k2, v) :: rest else (k2, v2) :: dictSet rest k v

/-- Python dict lookup `d.get(k)` for a key already known hashable. -/
def dictGet : List (Object × Object) → Object → Option Object
  | [], _ => none
  | (k2, v2) :: rest, k => if objEq k k2 then some v2 else dictGet rest k

/-- `d[k] = v` on a Python dict: hashing an unhashable key raises
TypeError before any comparison. -/
def pyDictSet (d : List (Object × Object)) (k v : Object) :
    Except Fault (List (Object × Object)) :=
  if hashable k then .ok (dictSet d k v) else .error (.hostError "TypeError")

/-- `d.get(k, default)` on a Python dict: an unhashable key raises
TypeError. -/
def pyDictGet (d : List (Object × Object)) (k : Object) (dflt : Object) :
    Except Fault Object :=
  if hashable k then .ok ((dictGet d k).getD dflt) else .error (.hostError "TypeError")

/-! ## builtins.py

Each builtin returns an object, or Python `None` (`Option.none`) — note the
bare `return None` at the end of `_monkey_first` / `_monkey_last` /
`_monkey_rest` and of `_monkey_puts`. -/

/-- `_monkey_len`. -/
def monkeyLen (args : List Object) : Option Object :=
  if args.length ≠ 1 then
    some (.error ("wrong number of arguments. got=" ++ toString args.length ++ ", want=1"))
  else
    match args.head? with
    | some (.string s) => some (.integer s.length)
    | some (.array elems) => some (.integer elems.length)
    | some arg => some (.error ("argument to \"len\" not supported, got " ++ objtypeStr arg))
    | none => none

/-- `_monkey_first`. -/
def monkeyFirst (args : List Object) : Option Object :=
  if args.length ≠ 1 then
    some (.error ("wrong number of arguments. got=" ++ toString args.length ++ ", want=1"))
  else
    match args.head? with
    | some (.array elems) =>
        match elems.head? with
        | some x => some x
        | none => none
    | some arg => some (.error ("argument to \"first\" must be ARRAY, got " ++ objtypeStr arg))
    | none => none

/-- `_monkey_last`. -/
def monkeyLast (args : List Object) : Option Object :=
  if args.length ≠ 1 then
    some (.error ("wrong number of arguments. got=" ++ toString args.length ++ ", want=1"))
  else
    match args.head? with
    | some (.array elems) =>
        if elems.length > 0 then some (elems.getLastD .null) else none
    | some arg => some (.error ("argument to \"last\" must be ARRAY, got " ++ objtypeStr arg))
    | none => none

/-- `_monkey_rest`. -/
def monkeyRest (args : List Object) : Option Object :=
  if args.length ≠ 1 then
    some (.error ("wrong number of arguments. got=" ++ toString args.length ++ ", want=1"))
  else
    match args.head? with
    | some (.array elems) =>
        if elems.length > 0 then some (.array elems.tail) else none
    | some arg => some (.error ("argument to \"rest\" must be ARRAY, got " ++ objtypeStr arg))
    | none => none

/-- `_monkey_push`. -/
def monkeyPush (args : List Object) : Option Object :=
  if args.length ≠ 2 then
    some (.error ("wrong number of arguments. got=" ++ toString args.length ++ ", want=2"))
  else
    match args.head? with
    | some (.array elems) =>
        some (.array (elems ++ (args.drop 1).take 1))
    | some arg => some (.error ("argument to \"push\" must be ARRAY, got " ++ objtypeStr arg))
    | none => none

/-- The `builtins` registration list of builtins.py, in order: the compiler
numbers builtins by position in this list. -/
def builtinNames : List String := ["len", "puts", "first", "last", "rest", "push"]

/-! ## symbol_table.py -/

/-- `SymbolScope` is a string type alias in symbol_table.py. -/
abbrev SymbolScope := String

def GlobalScope : SymbolScope := "GLOBAL"
def LocalScope : SymbolScope := "LOCAL"
def BuiltinScope : SymbolScope := "BUILTIN"
def FreeScope : SymbolScope := "FREE"
def FunctionScope : SymbolScope := "FUNCTION"

/-- The `Symbol` dataclass. -/
structure Symbol where
  name : String
  scope : SymbolScope
  index : Nat
deriving DecidableEq, Repr

/-- Python dict assignment `store[name] = symbol` (string keys): replace the
value of an existing key, else append. -/
def storeSet : List (String × Symbol) → String → Symbol → List (String × Symbol)
  | [], n, s => [(n, s)]
  | (n2, s2) :: rest, n, s =>
      if n == n2 then (n2, s) :: rest else (n2, s2) :: storeSet rest n s

/-- Python dict membership/lookup on `store` (string keys). -/
def storeGet : List (String × Symbol) → String → Option Symbol
  | [], _ => none
  | (n2, s2) :: rest, n => if n == n2 then some s2 else storeGet rest n

/-- `SymbolTable`: `root` has `outer is None`, `child` holds its outer
table.  Mutation of a table (or, through `resolve`, of a table in its outer
chain) is modelled by returning the updated table. -/
inductive SymbolTable where
  | root (store : List (String × Symbol)) (numDefinitions : Nat) (freeSymbols : List Symbol)
  | child (outer : SymbolTable) (store : List (String × Symbol))
      (numDefinitions : Nat) (freeSymbols : List Symbol)
deriving DecidableEq, Repr

namespace SymbolTable

def store : SymbolTable → List (String × Symbol)
  | .root s _ _ => s
  | .child _ s _ _ => s

def numDefinitions : SymbolTable → Nat
  | .root _ n _ => n
  | .child _ _ n _ => n

def freeSymbols : SymbolTable → List Symbol
  | .root _ _ f => f
  | .child _ _ _ f => f

/-- `SymbolTable.define`. -/
def define : SymbolTable → String → Symbol × SymbolTable
  | .root s n f, name =>
      let symbol : Symbol := ⟨name, GlobalScope, n⟩
      (symbol, .root (storeSet s name symbol) (n + 1) f)
  | .child o s n f, name =>
      let symbol : Symbol := ⟨name, LocalScope, n⟩
      (symbol, .child o (storeSet s name symbol) (n + 1) f)

/-- `SymbolTable.define_builtin`. -/
def defineBuiltin : SymbolTable → Nat → String → Symbol × SymbolTable
  | .root s n f, index, name =>
      let symbol : Symbol := ⟨name, BuiltinScope, index⟩
      (symbol, .root (storeSet s name symbol) n f)
  | .child o s n f, index, name =>
      let symbol : Symbol := ⟨name, BuiltinScope, index⟩
      (symbol, .child o (storeSet s name symbol) n f)

/-- `SymbolTable.define_free`: append the original symbol to
`free_symbols`, bind a Free copy (indexed by its position) in the store. -/
def defineFree : SymbolTable → Symbol → Symbol × SymbolTable
  | .root s n f, original =>
      let symbol : Symbol := ⟨original.name, FreeScope, f.length⟩
      (symbol, .root (storeSet s original.name symbol) n (f ++ [original]))
  | .child o s n f, original =>
      let symbol : Symbol := ⟨original.name, FreeScope, f.length⟩
      (symbol, .child o (storeSet s original.name symbol) n (f ++ [original]))

/-- `SymbolTable.define_function_name`. -/
def defineFunctionName : SymbolTable → String → Symbol × SymbolTable
  | .root s n f, name =>
      let symbol : Symbol := ⟨name, FunctionScope, 0⟩
      (symbol, .root (storeSet s name symbol) n f)
  | .child o s n f, name =>
      let symbol : Symbol := ⟨name, FunctionScope, 0⟩
      (symbol, .child o (storeSet s name symbol) n f)

/-- `SymbolTable.resolve`: local hit, else resolve in the outer chain
(which may mutate outer tables); a Global or Builtin outer result passes
through, anything else is promoted with `define_free` in this table. -/
def resolve : SymbolTable → String → Option Symbol × SymbolTable
  | .root s n f, name =>
      match storeGet s name with
      | some sym => (some sym, .root s n f)
      | none => (none, .root s n f)
  | .child o s n f, name =>
      match storeGet s name with
      | some sym => (some sym, .child o s n f)
      | none =>
          match resolve o name with
          | (none, o') => (none, .child o' s n f)
          | (some obj, o') =>
              if obj.scope == GlobalScope || obj.scope == BuiltinScope then
                (some obj, .child o' s n f)
              else
                let t := SymbolTable.child o' s n f
                let (free, t') := defineFree t obj
                (some free, t')

end SymbolTable

/-! ## myast.py: the AST shapes consumed by the compiler

Tokens carry no compilation-relevant data (only `__repr__` strings use
them, through fixed literals like `let`/`return`), so nodes are embedded
by their semantic fields.  A `BlockStatement` is its statement list;
`Program` is compiled exactly like a statement list. -/

mutual

inductive Expr where
  | intLit (value : Int)
  | boolLit (value : Bool)
  | strLit (value : String)
  | ident (value : String)
  | prefixExpr (op : String) (right : Expr)
  | infixExpr (op : String) (left : Expr) (right : Expr)
  | ifExpr (condition : Expr) (consequence : List Stmt) (alternative : Option (List Stmt))
  | arrayLit (elements : List Expr)
  | hashLit (pairs : List (Expr × Expr))
  | indexExpr (left : Expr) (index : Expr)
  | funcLit (parameters : List String) (body : List Stmt)
  | callExpr (function : Expr) (arguments : List Expr)

inductive Stmt where
  | letStmt (name : String) (value : Expr)
  | returnStmt (returnValue : Expr)
  | exprStmt (expression : Expr)

end

/-! ## compiler.py -/

/-- Compilation aborts with a returned `CompilerError` value or an uncaught
Python exception. -/
inductive CompErr where
  | compilerError (msg : String)
  | hostFault (kind : String)
deriving DecidableEq, Repr

/-- `EmittedInstruction` (both fields default to `None`). -/
structure EmittedInstruction where
  opcode : Option Opcode
  position : Option Nat
deriving Repr

/-- `CompilationScope`. -/
structure CompilationScope where
  instructions : List Nat
  lastInstruction : EmittedInstruction
  previousInstruction : EmittedInstruction
deriving Repr

def emptyScope : CompilationScope := ⟨[], ⟨none, none⟩, ⟨none, none⟩⟩

/-- The `Compiler` state. -/
structure Compiler where
  constants : List Object
  symbolTable : SymbolTable
  scopes : List CompilationScope
  scopeIndex : Nat
deriving Repr

namespace Compiler

/-- `Compiler.__init__`: empty constants, a root symbol table pre-loaded
with the builtins (numbered by registration order), one empty scope. -/
def new : Compiler :=
  let st := (builtinNames.foldl
    (fun (acc : SymbolTable × Nat) nm => ((acc.1.defineBuiltin acc.2 nm).2, acc.2 + 1))
    (SymbolTable.root [] 0 [], 0)).1
  ⟨[], st, [emptyScope], 0⟩

/-- `self.scopes[self.scope_index]`; the index is always in range in states
the compiler produces. -/
def currentScope (c : Compiler) : CompilationScope :=
  c.scopes.getD c.scopeIndex emptyScope

def setCurrentScope (c : Compiler) (s : CompilationScope) : Compiler :=
  { c with scopes := c.scopes.set c.scopeIndex s }

/-- `enter_scope`. -/
def enterScope (c : Compiler) : Compiler :=
  { c with scopes := c.scopes ++ [emptyScope],
           scopeIndex := c.scopeIndex + 1,
           symbolTable := .child c.symbolTable [] 0 [] }

/-- `leave_scope`: returns the left scope's instructions.  (`leave_scope`
is only ever called after a matching `enter_scope`, so the symbol table is
a `child` there.) -/
def leaveScope (c : Compiler) : List Nat × Compiler :=
  let instructions := c.currentScope.instructions
  let outer := match c.symbolTable with
    | .root s n f => SymbolTable.root s n f
    | .child o _ _ _ => o
  (instructions,
   { c with scopes := c.scopes.dropLast,
            scopeIndex := c.scopeIndex - 1,
            symbolTable := outer })

/-- `add_constant`: append, return the new constant's index. -/
def addConstant (c : Compiler) (obj : Object) : Nat × Compiler :=
  (c.constants.length, { c with constants := c.constants ++ [obj] })

/-- `add_instruction`: append bytes, return the position of the first. -/
def addInstruction (c : Compiler) (ins : List Nat) : Nat × Compiler :=
  let idx := c.currentScope.instructions.length
  (idx, c.setCurrentScope { c.currentScope with
      instructions := c.currentScope.instructions ++ ins })

/-- `set_last_instruction`. -/
def setLastInstruction (c : Compiler) (op : Opcode) (pos : Nat) : Compiler :=
  let s := c.currentScope
  c.setCurrentScope { s with previousInstruction := s.lastInstruction,
                             lastInstruction := ⟨some op, some pos⟩ }

/-- `emit`. -/
def emit (c : Compiler) (op : Opcode) (operands : List Nat) : Nat × Compiler :=
  let ins := make op operands
  let (pos, c) := c.addInstruction ins
  (pos, c.setLastInstruction op pos)

/-- `last_instruction_is`. -/
def lastInstructionIs (c : Compiler) (op : Opcode) : Bool :=
  if c.currentScope.instructions.length == 0 then false
  else match c.currentScope.lastInstruction.opcode with
    | some op2 => op2 == op
    | none => false

/-- `remove_last_pop` (only called when the last instruction is an OpPop,
so `position` is set). -/
def removeLastPop (c : Compiler) : Compiler :=
  let s := c.currentScope
  c.setCurrentScope { s with
      instructions := s.instructions.take (s.lastInstruction.position.getD 0),
      lastInstruction := s.previousInstruction }

/-- `replace_instruction`: overwrite bytes in place starting at `pos`
(always within range when called). -/
def replaceAt : List Nat → Nat → List Nat → List Nat
  | l, _, [] => l
  | l, pos, b :: rest => replaceAt (l.set pos b) (pos + 1) rest

def replaceInstruction (c : Compiler) (pos : Nat) (newInstruction : List Nat) : Compiler :=
  let s := c.currentScope
  c.setCurrentScope { s with instructions := replaceAt s.instructions pos newInstruction }

/-- `replace_last_pop_with_return`. -/
def replaceLastPopWithReturn (c : Compiler) : Compiler :=
  let lastPos := c.currentScope.lastInstruction.position.getD 0
  let c := c.replaceInstruction lastPos (make .OpReturnValue [])
  let s := c.currentScope
  c.setCurrentScope { s with
      lastInstruction := { s.lastInstruction with opcode := some .OpReturnValue } }

/-- `change_operand`: re-decode the opcode at `op_pos` (an invalid byte
would raise ValueError), re-make the instruction, splice it in. -/
def changeOperand (c : Compiler) (opPos : Nat) (operand : Nat) : Except CompErr Compiler :=
  match Opcode.decode (c.currentScope.instructions.getD opPos 0) with
  | none => .error (.hostFault "ValueError")
  | some op => .ok (c.replaceInstruction opPos (make op [operand]))

/-- `load_symbol`: Global/Local/Builtin emit their loader; any other scope
(Free, Function) matches no branch and emits NOTHING. -/
def loadSymbol (c : Compiler) (sym : Symbol) : Compiler :=
  if sym.scope == GlobalScope then (c.emit .OpGetGlobal [sym.index]).2
  else if sym.scope == LocalScope then (c.emit .OpGetLocal [sym.index]).2
  else if sym.scope == BuiltinScope then (c.emit .OpGetBuiltin [sym.index]).2
  else c

end Compiler

/-- Stable insertion by sort key (Python's `list.sort` is stable;
string comparison is lexicographic by code point). -/
def insertByStr (x : String × (Expr × Expr)) :
    List (String × (Expr × Expr)) → List (String × (Expr × Expr))
  | [] => [x]
  | y :: ys => if x.1 < y.1 then x :: y :: ys else y :: insertByStr x ys

/-- `keys.sort(key=lambda x: str(x))` over the hash-literal pairs. -/
def sortPairsByStr (l : List (String × (Expr × Expr))) : List (String × (Expr × Expr)) :=
  l.foldl (fun acc x => insertByStr x acc) []

mutual

/-- `Compiler.compile` on a statement node (fuel bounds recursion depth;
every compilation in this development uses far less than the supplied
fuel). -/
def compileStmt : Nat → Stmt → Compiler → Except CompErr Compiler
  | 0, _, _ => .error (.hostFault "RecursionError")
  | fuel + 1, stmt, c =>
    match stmt with
    | .exprStmt e => do
        let c ← compileExpr fuel e c
        .ok (c.emit .OpPop []).2
    | .letStmt name value => do
        let c ← compileExpr fuel value c
        let (symbol, st) := c.symbolTable.define name
        let c := { c with symbolTable := st }
        if symbol.scope == GlobalScope then
          .ok (c.emit .OpSetGlobal [symbol.index]).2
        else
          .ok (c.emit .OpSetLocal [symbol.index]).2
    | .returnStmt rv => do
        let c ← compileExpr fuel rv c
        .ok (c.emit .OpReturnValue []).2

/-- `Compiler.compile` on an expression node. -/
def compileExpr : Nat → Expr → Compiler → Except CompErr Compiler
  | 0, _, _ => .error (.hostFault "RecursionError")
  | fuel + 1, e, c =>
    match e with
    | .intLit v =>
        let (idx, c) := c.addConstant (.integer v)
        .ok (c.emit .OpConstant [idx]).2
    | .boolLit v => if v then .ok (c.emit .OpTrue []).2 else .ok (c.emit .OpFalse []).2
    | .strLit s =>
        let (idx, c) := c.addConstant (.string s)
        .ok (c.emit .OpConstant [idx]).2
    | .ident name =>
        let (symOpt, st) := c.symbolTable.resolve name
        let c := { c with symbolTable := st }
        match symOpt with
        | none => .error (.compilerError ("Undefined variable: " ++ name))
        | some sym => .ok (c.loadSymbol sym)
    | .prefixExpr op right => do
        let c ← compileExpr fuel right c
        if op == "-" then .ok (c.emit .OpMinus []).2
        else if op == "!" then .ok (c.emit .OpBang []).2
        else .error (.compilerError ("Unknown operator " ++ op))
    | .infixExpr op left right =>
        if op == "<" then do
          let c ← compileExpr fuel right c
          let c ← compileExpr fuel left c
          .ok (c.emit .OpGreaterThan []).2
        else do
          let c ← compileExpr fuel left c
          let c ← compileExpr fuel right c
          if op == "+" then .ok (c.emit .OpAdd []).2
          else if op == "-" then .ok (c.emit .OpSub []).2
          else if op == "*" then .ok (c.emit .OpMul []).2
          else if op == "/" then .ok (c.emit .OpDiv []).2
          else if op == ">" then .ok (c.emit .OpGreaterThan []).2
          else if op == "==" then .ok (c.emit .OpEqual []).2
          else if op == "!=" then .ok (c.emit .OpNotEqual []).2
          else .error (.compilerError ("Unknown operator " ++ op))
    | .ifExpr condition consequence alternative => do
        let c ← compileExpr fuel condition c
        let (jumpNotTruthyPos, c) := c.emit .OpJumpNotTruthy [9999]
        let c ← compileStmtList fuel consequence c
        let c := if c.lastInstructionIs .OpPop then c.removeLastPop else c
        let (jumpPos, c) := c.emit .OpJump [9999]
        let afterConsequencePos := c.currentScope.instructions.length
        let c ← c.changeOperand jumpNotTruthyPos afterConsequencePos
        let c ← match alternative with
          | none => .ok (c.emit .OpNull []).2
          | some alt => do
              let c ← compileStmtList fuel alt c
              .ok (if c.lastInstructionIs .OpPop then c.removeLastPop else c)
        let afterAlternativePos := c.currentScope.instructions.length
        c.changeOperand jumpPos afterAlternativePos
    | .arrayLit elements => do
        let c ← compileExprList fuel elements c
        .ok (c.emit .OpArray [elements.length]).2
    | .hashLit pairs => do
        let decorated ← reprDecorate fuel pairs
        let c ← compileSortedPairs fuel (sortPairsByStr decorated) c
        .ok (c.emit .OpHash [2 * pairs.length]).2
    | .indexExpr left index => do
        let c ← compileExpr fuel left c
        let c ← compileExpr fuel index c
        .ok (c.emit .OpIndex []).2
    | .funcLit parameters body => do
        let c := c.enterScope
        let c := parameters.foldl
          (fun c p => { c with symbolTable := (c.symbolTable.define p).2 }) c
        let c ← compileStmtList fuel body c
        let c := if c.lastInstructionIs .OpPop then c.replaceLastPopWithReturn else c
        let c := if ¬ c.lastInstructionIs .OpReturnValue then (c.emit .OpReturn []).2 else c
        let numLocals := c.symbolTable.numDefinitions
        let (instructions, c) := c.leaveScope
        let compiledFn : CompiledFunction := ⟨instructions, numLocals, parameters.length⟩
        let (constIdx, c) := c.addConstant (.compiledFn compiledFn)
        .ok (c.emit .OpConstant [constIdx]).2
    | .callExpr function arguments => do
        let c ← compileExpr fuel function c
        let c ← compileExprList fuel arguments c
        .ok (c.emit .OpCall [arguments.length]).2

/-- The statement loops of the `Program` and `BlockStatement` branches. -/
def compileStmtList : Nat → List Stmt → Compiler → Except CompErr Compiler
  | 0, _, _ => .error (.hostFault "RecursionError")
  | _ + 1, [], c => .ok c
  | fuel + 1, s :: rest, c => do
      let c ← compileStmt fuel s c
      compileStmtList fuel rest c

/-- The element loops of the `ArrayLiteral` / `CallExpression` branches. -/
def compileExprList : Nat → List Expr → Compiler → Except CompErr Compiler
  | 0, _, _ => .error (.hostFault "RecursionError")
  | _ + 1, [], c => .ok c
  | fuel + 1, e :: rest, c => do
      let c ← compileExpr fuel e c
      compileExprList fuel rest c

/-- The `HashLiteral` key/value loop, over the pairs sorted by key repr. -/
def compileSortedPairs : Nat → List (String × (Expr × Expr)) → Compiler →
    Except CompErr Compiler
  | 0, _, _ => .error (.hostFault "RecursionError")
  | _ + 1, [], c => .ok c
  | fuel + 1, (_, (k, v)) :: rest, c => do
      let c ← compileExpr fuel k c
      let c ← compileExpr fuel v c
      compileSortedPairs fuel rest c

/-- Attach `str(key)` to every hash-literal pair (the sort keys). -/
def reprDecorate : Nat → List (Expr × Expr) → Except CompErr (List (String × (Expr × Expr)))
  | 0, _ => .error (.hostFault "RecursionError")
  | _ + 1, [] => .ok []
  | fuel + 1, kv :: rest => do
      let s ← reprExpr fuel kv.1
      let rest' ← reprDecorate fuel rest
      .ok ((s, kv) :: rest')

/-- `str(node)` on an expression, following each myast.py `__repr__`.
`FunctionLiteral.__repr__` builds a string but returns `None`, which makes
`str()` raise TypeError. -/
def reprExpr : Nat → Expr → Except CompErr String
  | 0, _ => .error (.hostFault "RecursionError")
  | fuel + 1, e =>
    match e with
    | .intLit v => .ok ("IntegerLiteral(" ++ toString v ++ ")")
    | .boolLit v => .ok ("Boolean(" ++ (if v then "True" else "False") ++ ")")
    | .strLit s => .ok ("StringLiteral(\"" ++ s ++ "\")")
    | .ident name => .ok ("Identifier(" ++ name ++ ")")
    | .prefixExpr op right => do
        let r ← reprExpr fuel right
        .ok ("PrefixExpression(" ++ op ++ r ++ ")")
    | .infixExpr op left right => do
        let l ← reprExpr fuel left
        let r ← reprExpr fuel right
        .ok ("InfixExpression(" ++ l ++ " " ++ op ++ " " ++ r ++ ")")
    | .ifExpr condition consequence alternative => do
        let sc ← reprExpr fuel condition
        let scons ← reprBlock fuel consequence
        let base := "IfExpression(" ++ sc ++ ", " ++ scons
        match alternative with
        | none => .ok base
        | some alt => do
            let salt ← reprBlock fuel alt
            .ok (base ++ ", " ++ salt ++ ")")
    | .arrayLit elements => do
        let ss ← reprExprList fuel elements
        .ok ("ArrayLiteral(" ++ String.intercalate ", " ss ++ ")")
    | .hashLit pairs => do
        let ss ← reprPairList fuel pairs
        .ok ("HashLiteral(" ++ String.intercalate ", " ss ++ ")")
    | .indexExpr left index => do
        let l ← reprExpr fuel left
        let i ← reprExpr fuel index
        .ok ("(" ++ l ++ "[" ++ i ++ "])")
    | .funcLit _ _ => .error (.hostFault "TypeError")
    | .callExpr function arguments => do
        let f ← reprExpr fuel function
        let args ← reprExprList fuel arguments
        .ok (f ++ "(" ++ String.intercalate ", " args ++ ")")

/-- `str(node)` on a statement. -/
def reprStmt : Nat → Stmt → Except CompErr String
  | 0, _ => .error (.hostFault "RecursionError")
  | fuel + 1, stmt =>
    match stmt with
    | .letStmt name value => do
        let v ← reprExpr fuel value
        .ok ("let Identifier(" ++ name ++ ") = " ++ v ++ ";")
    | .returnStmt rv => do
        let v ← reprExpr fuel rv
        .ok ("return " ++ v ++ ";")
    | .exprStmt e => do
        let s ← reprExpr fuel e
        .ok ("ExpressionStatement(" ++ s ++ ")")

/-- `str` of a `BlockStatement`. -/
def reprBlock : Nat → List Stmt → Except CompErr String
  | 0, _ => .error (.hostFault "RecursionError")
  | fuel + 1, stmts => do
      let ss ← reprStmtList fuel stmts
      .ok ("BlockStatement(" ++ String.intercalate ",\n               " ss ++ ")")

def reprStmtList : Nat → List Stmt → Except CompErr (List String)
  | 0, _ => .error (.hostFault "RecursionError")
  | _ + 1, [] => .ok []
  | fuel + 1, s :: rest => do
      let x ← reprStmt fuel s
      let xs ← reprStmtList fuel rest
      .ok (x :: xs)

def reprExprList : Nat → List Expr → Except CompErr (List String)
  | 0, _ => .error (.hostFault "RecursionError")
  | _ + 1, [] => .ok []
  | fuel + 1, e :: rest => do
      let x ← reprExpr fuel e
      let xs ← reprExprList fuel rest
      .ok (x :: xs)

def reprPairList : Nat → List (Expr × Expr) → Except CompErr (List String)
  | 0, _ => .error (.hostFault "RecursionError")
  | _ + 1, [] => .ok []
  | fuel + 1, (k, v) :: rest => do
      let sk ← reprExpr fuel k
      let sv ← reprExpr fuel v
      let xs ← reprPairList fuel rest
      .ok ((sk ++ ":" ++ sv) :: xs)

end

/-- Compile a whole program on a fresh compiler (ample fuel). -/
def compileProgram (prog : List Stmt) : Except CompErr Compiler :=
  compileStmtList 1000 prog Compiler.new

/-- The program `fn() { 24 };`. -/
def funcLitProgram : List Stmt :=
  [.exprStmt (.funcLit [] [.exprStmt (.intLit 24)])]

/-- The recursive program of the spec's conformance suite (and of
test_vm.py's `test_recursive_fibonacci`):
`let fibonacci = fn(x) { if (x == 0) { return 0; } else { if (x == 1)
{ return 1; } else { fibonacci(x - 1) + fibonacci(x - 2); } } };
fibonacci(15);`. -/
def fibonacciProgram : List Stmt :=
  [.letStmt "fibonacci"
     (.funcLit ["x"]
        [.exprStmt
           (.ifExpr (.infixExpr "==" (.ident "x") (.intLit 0))
              [.returnStmt (.intLit 0)]
              (some
                 [.exprStmt
                    (.ifExpr (.infixExpr "==" (.ident "x") (.intLit 1))
                       [.returnStmt (.intLit 1)]
                       (some
                          [.exprStmt
                             (.infixExpr "+"
                                (.callExpr (.ident "fibonacci")
                                   [.infixExpr "-" (.ident "x") (.intLit 1)])
                                (.callExpr (.ident "fibonacci")
                                   [.infixExpr "-" (.ident "x") (.intLit 2)]))]))]))]),
   .exprStmt (.callExpr (.ident "fibonacci") [.intLit 15])]

/-! ## vm.py -/

def STACK_SIZE : Nat := 2048
def GLOBALS_SIZE : Nat := 65536
def MAX_FRAMES : Nat := 1024

/-- The TRUE / FALSE / NULL singletons of vm.py. -/
def TRUE : Object := .boolean true
def FALSE : Object := .boolean false
def NULL : Object := .null

/-- `Frame` from frame.py (`ip` starts at -1). -/
structure Frame where
  fn : CompiledFunction
  ip : Int
  basePointer : Int
deriving Repr

/-- The mutable state of `VirtualMachine`.  Stack, globals and frame slots
start as Python `None` (`Option.none`); `sp` and `frames_index` are Python
ints. -/
structure VirtualMachine where
  constants : List Object
  globals : List (Option Object)
  stack : List (Option Object)
  sp : Int
  frames : List (Option Frame)
  framesIndex : Int
deriving Repr

namespace VirtualMachine

/-- `VirtualMachine.__init__` on a bytecode (instructions, constants):
fresh stacks, a main frame wrapping the top-level instructions. -/
def new (instructions : List Nat) (constants : List Object) : VirtualMachine :=
  { constants := constants
    globals := List.replicate GLOBALS_SIZE none
    stack := List.replicate STACK_SIZE none
    sp := 0
    frames := (some ⟨⟨instructions, 0, 0⟩, -1, 0⟩) ::
      List.replicate (MAX_FRAMES - 1) none
    framesIndex := 1 }

/-- `self.current_frame` (`frames[frames_index - 1]`); using a `None` slot
as a frame raises AttributeError at the first attribute access. -/
def currentFrame (vm : VirtualMachine) : Except Fault Frame := do
  match ← pyGet vm.frames (vm.framesIndex - 1) with
  | some f => .ok f
  | none => .error (.hostError "AttributeError")

/-- Write back the current frame object (Python mutates it in place through
the `frames[frames_index - 1]` reference). -/
def setCurrentFrame (vm : VirtualMachine) (f : Frame) : Except Fault VirtualMachine := do
  let frames ← pySet vm.frames (vm.framesIndex - 1) (some f)
  .ok { vm with frames := frames }

/-- `push`: the overflow guard checks `sp` against the STACK_SIZE constant
before writing. -/
def push (vm : VirtualMachine) (o : Option Object) : Except Fault VirtualMachine :=
  if vm.sp ≥ (STACK_SIZE : Int) then
    .error (.vmError "stack overflow")
  else do
    let stack ← pySet vm.stack vm.sp o
    .ok { vm with stack := stack, sp := vm.sp + 1 }

/-- `pop`: reads `stack[sp - 1]` (no underflow guard) and decrements `sp`. -/
def pop (vm : VirtualMachine) : Except Fault (Option Object × VirtualMachine) := do
  let o ← pyGet vm.stack (vm.sp - 1)
  .ok (o, { vm with sp := vm.sp - 1 })

/-- `push_frame`: writes `frames[frames_index]` with NO capacity guard
(the write itself raises IndexError once the 1024 slots are full). -/
def pushFrame (vm : VirtualMachine) (f : Frame) : Except Fault VirtualMachine := do
  let frames ← pySet vm.frames vm.framesIndex (some f)
  .ok { vm with frames := frames, framesIndex := vm.framesIndex + 1 }

/-- `pop_frame`: decrement, then read the slot (used as a Frame by the
callers). -/
def popFrame (vm : VirtualMachine) : Except Fault (Frame × VirtualMachine) := do
  let idx := vm.framesIndex - 1
  match ← pyGet vm.frames idx with
  | some f => .ok (f, { vm with framesIndex := idx })
  | none => .error (.hostError "AttributeError")

/-- `native_bool_to_boolean_object`. -/
def nativeBoolToBooleanObject (b : Bool) : Object := if b then TRUE else FALSE

/-- `is_truthy`: Booleans by value, NULL false, everything else (a Python
`None` slot included) truthy. -/
def isTruthy (obj : Option Object) : Bool :=
  match obj with
  | some (.boolean b) => b
  | some .null => false
  | _ => true

/-- `execute_binary_integer_operation`.  Python `//` is floor division;
division by zero raises ZeroDivisionError.  The unknown-operator default
is kept for fidelity. -/
def executeBinaryIntegerOperation (vm : VirtualMachine) (op : Opcode)
    (leftVal rightVal : Int) : Except Fault VirtualMachine :=
  match op with
  | .OpAdd => vm.push (some (.integer (leftVal + rightVal)))
  | .OpSub => vm.push (some (.integer (leftVal - rightVal)))
  | .OpMul => vm.push (some (.integer (leftVal * rightVal)))
  | .OpDiv =>
      if rightVal = 0 then .error (.hostError "ZeroDivisionError")
      else vm.push (some (.integer (leftVal.fdiv rightVal)))
  | _ => .error (.vmError ("unknown integer operator: " ++ op.pyStr))

/-- `execute_binary_string_operation`. -/
def executeBinaryStringOperation (vm : VirtualMachine) (op : Opcode)
    (leftVal rightVal : String) : Except Fault VirtualMachine :=
  match op with
  | .OpAdd => vm.push (some (.string (leftVal ++ rightVal)))
  | _ => .error (.vmError ("unknown string operator: " ++ op.pyStr))

/-- `execute_binary_operation`: pops right then left; the mismatch branch
formats the message with the nonexistent method `left.type()`, so any
non-Integer/Integer, non-String/String pair raises AttributeError. -/
def executeBinaryOperation (vm : VirtualMachine) (op : Opcode) :
    Except Fault VirtualMachine := do
  let (right, vm) ← vm.pop
  let (left, vm) ← vm.pop
  match left, right with
  | some (.integer l), some (.integer r) => executeBinaryIntegerOperation vm op l r
  | some (.string l), some (.string r) => executeBinaryStringOperation vm op l r
  | _, _ => .error (.hostError "AttributeError")

/-- `execute_integer_comparison`. -/
def executeIntegerComparison (vm : VirtualMachine) (op : Opcode)
    (leftVal rightVal : Int) : Except Fault VirtualMachine :=
  match op with
  | .OpEqual => vm.push (some (nativeBoolToBooleanObject (leftVal == rightVal)))
  | .OpNotEqual => vm.push (some (nativeBoolToBooleanObject (leftVal != rightVal)))
  | .OpGreaterThan => vm.push (some (nativeBoolToBooleanObject (leftVal > rightVal)))
  | _ => .error (.vmError ("unknown integer comparison operator: " ++ op.pyStr))

/-- `execute_comparison`: pops right then left; Integer pairs go to the
integer comparison, everything else compares with Python `==`. -/
def executeComparison (vm : VirtualMachine) (op : Opcode) :
    Except Fault VirtualMachine := do
  let (right, vm) ← vm.pop
  let (left, vm) ← vm.pop
  match left, right with
  | some (.integer l), some (.integer r) => executeIntegerComparison vm op l r
  | _, _ =>
    match op with
    | .OpEqual => vm.push (some (nativeBoolToBooleanObject (pyEq left right)))
    | .OpNotEqual => vm.push (some (nativeBoolToBooleanObject (¬ pyEq left right)))
    | _ => .error (.vmError ("unknown boolean comparison operator: " ++ op.pyStr))

/-- `execute_bang_operator`. -/
def executeBangOperator (vm : VirtualMachine) : Except Fault VirtualMachine := do
  let (operand, vm) ← vm.pop
  if pyEq operand (some TRUE) then vm.push (some FALSE)
  else if pyEq operand (some FALSE) then vm.push (some TRUE)
  else if pyEq operand (some NULL) then vm.push (some TRUE)
  else vm.push (some FALSE)

/-- `execute_minus_operator`: the non-Integer branch formats with the
nonexistent `operand.type()`, raising AttributeError. -/
def executeMinusOperator (vm : VirtualMachine) : Except Fault VirtualMachine := do
  let (operand, vm) ← vm.pop
  match operand with
  | some (.integer v) => vm.push (some (.integer (-v)))
  | _ => .error (.hostError "AttributeError")

/-- `call_function`: only a `CompiledFunction` callee is accepted — any
other value (Builtin included; no Closure type exists) is the runtime
error `calling non-function`. -/
def callFunction (vm : VirtualMachine) (numArgs : Nat) : Except Fault VirtualMachine := do
  let fnSlot ← pyGet vm.stack (vm.sp - 1 - numArgs)
  match fnSlot with
  | some (.compiledFn fn) =>
      if numArgs ≠ fn.numParameters then
        .error (.vmError ("wrong number of arguments: want=" ++
          toString fn.numParameters ++ ", got=" ++ toString numArgs))
      else do
        let frame : Frame := ⟨fn, -1, vm.sp - numArgs⟩
        let vm ← vm.pushFrame frame
        .ok { vm with sp := frame.basePointer + fn.numLocals }
  | _ => .error (.vmError "calling non-function")

/-- The element loop of `build_array` (`for i in range(start, end)`),
counted down by the number of remaining iterations.  A `None` stack slot
never occurs under compiled bytecode and is surfaced as a distinct fault
here. -/
def buildArrayLoop (vm : VirtualMachine) : Nat → Int → List Object →
    Except Fault (List Object)
  | 0, _, acc => .ok acc
  | n + 1, i, acc => do
      match ← pyGet vm.stack i with
      | some o => buildArrayLoop vm n (i + 1) (acc ++ [o])
      | none => .error (.hostError "NoneSlot")

/-- `build_array`: collect `stack[start:end]` into an ArrayObject. -/
def buildArray (vm : VirtualMachine) (start finish : Int) : Except Fault Object := do
  let elements ← buildArrayLoop vm (finish - start).toNat start []
  .ok (.array elements)

/-- The pair loop of `build_hash` (`for i in range(start, end, 2)`),
counted down by the number of remaining iterations: each iteration runs
`pairs[key] = value`, so an unhashable key raises TypeError from the dict
assignment — there is no `unusable as hash key` check in the VM. -/
def buildHashLoop (vm : VirtualMachine) : Nat → Int → List (Object × Object) →
    Except Fault (List (Object × Object))
  | 0, _, pairs => .ok pairs
  | n + 1, i, pairs => do
      match ← pyGet vm.stack i, ← pyGet vm.stack (i + 1) with
      | some key, some value => buildHashLoop vm n (i + 2) (← pyDictSet pairs key value)
      | _, _ => .error (.hostError "NoneSlot")

/-- `build_hash`: build the pairs dict from `stack[start:end:2]`
(`range(start, end, 2)` runs `⌈(end-start)/2⌉` iterations when positive). -/
def buildHash (vm : VirtualMachine) (start finish : Int) : Except Fault Object := do
  let pairs ← buildHashLoop vm (((finish - start).toNat + 1) / 2) start []
  .ok (.hash pairs)

/-- `execute_array_index`. -/
def executeArrayIndex (vm : VirtualMachine) (elements : List Object) (i : Int) :
    Except Fault VirtualMachine :=
  if i < 0 ∨ i > (elements.length : Int) - 1 then vm.push (some NULL)
  else vm.push (some (elements.getD i.toNat .null))

/-- `execute_hash_index`: `pairs.get(key, NULL)`; hashing an unhashable
key raises TypeError (no `unusable as hash key` error in the VM). -/
def executeHashIndex (vm : VirtualMachine) (pairs : List (Object × Object))
    (key : Option Object) : Except Fault VirtualMachine := do
  match key with
  | some k => vm.push (some (← pyDictGet pairs k NULL))
  | none => .error (.hostError "TypeError")

/-- `execute_index_expression`. -/
def executeIndexExpression (vm : VirtualMachine) (left index : Option Object) :
    Except Fault VirtualMachine :=
  match left, index with
  | some (.array elements), some (.integer i) => executeArrayIndex vm elements i
  | some (.hash pairs), _ => executeHashIndex vm pairs index
  | _, _ => .error (.vmError ("index operator not supported for " ++ pyTypeStr left))

/-- `self.current_frame.ip += k` (mutates the frame object held in
`frames[frames_index - 1]`). -/
def bumpIp (vm : VirtualMachine) (k : Int) : Except Fault VirtualMachine := do
  let f ← vm.currentFrame
  vm.setCurrentFrame { f with ip := f.ip + k }

/-- `self.current_frame.ip = v`. -/
def setIp (vm : VirtualMachine) (v : Int) : Except Fault VirtualMachine := do
  let f ← vm.currentFrame
  vm.setCurrentFrame { f with ip := v }

/-- The dispatch of one `run()` iteration, after the opcode at `ip` has
been decoded: one `elif` branch per handled opcode.  The chain has NO
`else`: `OpGetBuiltin`, `OpGetFree`, `OpClosure` and `OpCurrentClosure`
match no branch, so the iteration changes nothing at all (in particular
`ip` is not advanced past their operand bytes). -/
def dispatch (vm : VirtualMachine) (ip : Int) (ins : List Nat) (op : Opcode) :
    Except Fault VirtualMachine :=
  match op with
  | .OpConstant => do
      let constIndex := fromBytesBE (pySlice ins (ip + 1) (ip + 3))
      let vm ← vm.bumpIp 2
      let c ← pyGet vm.constants constIndex
      vm.push (some c)
  | .OpTrue => vm.push (some TRUE)
  | .OpFalse => vm.push (some FALSE)
  | .OpPop => do
      let (_, vm) ← vm.pop
      .ok vm
  | .OpAdd => vm.executeBinaryOperation op
  | .OpSub => vm.executeBinaryOperation op
  | .OpMul => vm.executeBinaryOperation op
  | .OpDiv => vm.executeBinaryOperation op
  | .OpEqual => vm.executeComparison op
  | .OpNotEqual => vm.executeComparison op
  | .OpGreaterThan => vm.executeComparison op
  | .OpBang => vm.executeBangOperator
  | .OpMinus => vm.executeMinusOperator
  | .OpJump => do
      let pos := fromBytesBE (pySlice ins (ip + 1) (ip + 3))
      vm.setIp ((pos : Int) - 1)
  | .OpJumpNotTruthy => do
      let pos := fromBytesBE (pySlice ins (ip + 1) (ip + 3))
      let vm ← vm.bumpIp 2
      let (condition, vm) ← vm.pop
      if ¬ isTruthy condition then vm.setIp ((pos : Int) - 1) else .ok vm
  | .OpNull => vm.push (some NULL)
  | .OpSetGlobal => do
      let globalIndex := fromBytesBE (pySlice ins (ip + 1) (ip + 3))
      let vm ← vm.bumpIp 2
      let (v, vm) ← vm.pop
      let globals ← pySet vm.globals globalIndex v
      .ok { vm with globals := globals }
  | .OpGetGlobal => do
      let globalIndex := fromBytesBE (pySlice ins (ip + 1) (ip + 3))
      let vm ← vm.bumpIp 2
      let v ← pyGet vm.globals globalIndex
      vm.push v
  | .OpArray => do
      let numElements := fromBytesBE (pySlice ins (ip + 1) (ip + 3))
      let vm ← vm.bumpIp 2
      let array ← vm.buildArray (vm.sp - numElements) vm.sp
      let vm := { vm with sp := vm.sp - numElements }
      vm.push (some array)
  | .OpHash => do
      let numElements := fromBytesBE (pySlice ins (ip + 1) (ip + 3))
      let vm ← vm.bumpIp 2
      let hashMap ← vm.buildHash (vm.sp - numElements) vm.sp
      let vm := { vm with sp := vm.sp - numElements }
      vm.push (some hashMap)
  | .OpIndex => do
      let (index, vm) ← vm.pop
      let (left, vm) ← vm.pop
      vm.executeIndexExpression left index
  | .OpCall => do
      let numArgs ← pyGet ins (ip + 1)
      let vm ← vm.bumpIp 1
      vm.callFunction numArgs
  | .OpReturnValue => do
      let (returnValue, vm) ← vm.pop
      let (frame, vm) ← vm.popFrame
      let vm := { vm with sp := frame.basePointer - 1 }
      vm.push returnValue
  | .OpReturn => do
      let (frame, vm) ← vm.popFrame
      let vm := { vm with sp := frame.basePointer - 1 }
      vm.push (some NULL)
  | .OpSetLocal => do
      let localIndex := fromBytesBE (pySlice ins (ip + 1) (ip + 2))
      let vm ← vm.bumpIp 1
      let f ← vm.currentFrame
      let (v, vm) ← vm.pop
      let stack ← pySet vm.stack (f.basePointer + localIndex) v
      .ok { vm with stack := stack }
  | .OpGetLocal => do
      let localIndex := fromBytesBE (pySlice ins (ip + 1) (ip + 2))
      let vm ← vm.bumpIp 1
      let f ← vm.currentFrame
      let v ← pyGet vm.stack (f.basePointer + localIndex)
      vm.push v
  | .OpGetBuiltin => .ok vm
  | .OpGetFree => .ok vm
  | .OpClosure => .ok vm
  | .OpCurrentClosure => .ok vm

/-- Outcome of one `run()` loop iteration: loop exit, next state, a
returned `VmError`, or an uncaught Python exception. -/
inductive StepResult where
  | halt
  | next (vm : VirtualMachine)
  | vmErr (msg : String)
  | hostErr (kind : String)
deriving Repr

def ofFault : Fault → StepResult
  | .vmError m => .vmErr m
  | .hostError k => .hostErr k

def toStep : Except Fault VirtualMachine → StepResult
  | .ok vm => .next vm
  | .error f => ofFault f

/-- One iteration of `run()`: test the loop condition, advance `ip`,
fetch and decode the opcode byte (an invalid byte raises ValueError),
dispatch. -/
def step (vm : VirtualMachine) : StepResult :=
  match vm.currentFrame with
  | .error fault => ofFault fault
  | .ok f =>
    if f.ip < (f.fn.instructions.length : Int) - 1 then
      match vm.setCurrentFrame { f with ip := f.ip + 1 } with
      | .error fault => ofFault fault
      | .ok vm' =>
        let ip := f.ip + 1
        let ins := f.fn.instructions
        match pyGet ins ip with
        | .error fault => ofFault fault
        | .ok b =>
          match Opcode.decode b with
          | none => .hostErr "ValueError"
          | some op => toStep (dispatch vm' ip ins op)
    else
      .halt

end VirtualMachine

/-! ## evaluator.py: the hash-key handling of the tree-walker -/

/-- The dict-building loop of `Evaluator.evaluate_hash_literal`, with the
key and value subexpressions already evaluated to objects: each iteration
runs `pairs[key] = value`, so an unhashable key raises TypeError — the
tree-walker has no `unusable as hash key` check on literals either. -/
def evaluateHashLiteralPairs (kvs : List (Object × Object)) : Except Fault Object := do
  let rec go : List (Object × Object) → List (Object × Object) →
      Except Fault (List (Object × Object))
    | [], pairs => .ok pairs
    | (key, value) :: rest, pairs => do go rest (← pyDictSet pairs key value)
  let pairs ← go kvs []
  .ok (.hash pairs)

/-- `Evaluator.evaluate_hash_index_expression`: the one place with an
`isinstance(key, Hashable)` guard, returning the ErrorObject
`unusable as hash key: <objtype>`; a present value is returned, an absent
(or stored-as-None) one becomes NULL. -/
def evaluateHashIndexExpression (pairs : List (Object × Object)) (key : Object) : Object :=
  if ¬ hashable key then
    .error ("unusable as hash key: " ++ objtypeStr key)
  else
    match dictGet pairs key with
    | none => .null
    | some v => v

/-! ## Theorems -/

/-- Looking up a just-assigned key in a Python dict store yields the
assigned value. -/
theorem storeGet_storeSet (s : List (String × Symbol)) (k : String) (v : Symbol) :
    storeGet (storeSet s k v) k = some v := by
  induction s with
  | nil => simp [storeSet, storeGet]
  | cons hd tl ih =>
      obtain ⟨n2, s2⟩ := hd
      by_cases h : k = n2
      · simp [storeSet, storeGet, h]
      · simp [storeSet, storeGet, h, ih]

/-- Reading back a successfully written Python list slot yields the
written value. -/
theorem pyGet_pySet {α : Type} (l l' : List α) (i : Int) (v : α)
    (h : pySet l i v = .ok l') : pyGet l' i = .ok v := by
  unfold pySet at h
  unfold pyGet
  split at h
  · next hin =>
      injection h with h'
      subst h'
      rw [dif_pos (by simpa using hin)]
      simp [List.get_eq_getElem, List.getElem_set_self]
  · split at h
    · next hneg =>
        injection h with h'
        subst h'
        rw [dif_neg (by simpa using (by omega : ¬ (0 ≤ i ∧ i < ((l.set (i + l.length).toNat v).length : Int)))),
            dif_pos (by simpa using hneg)]
        simp [List.get_eq_getElem, List.getElem_set_self]
    · exact absurd h (by simp)

/-- A Python list write at an index at or beyond the length (with a
non-negative index) raises IndexError. -/
theorem pySet_oob {α : Type} (l : List α) (i : Int) (v : α)
    (h : (l.length : Int) ≤ i) : pySet l i v = .error (.hostError "IndexError") := by
  unfold pySet
  rw [if_neg (by omega), if_neg (by omega)]

/-- Claim C1: compiling a FunctionLiteral is claimed to end with one
loader per free symbol followed by `OpClosure const_idx nfree`.  The
compiler instead loads the just-added CompiledFunction constant with a
plain `OpConstant` and never emits `OpClosure` (byte 0x1D = 29): for
`fn() { 24 };` the emitted main instructions are
`OpConstant 1; OpPop` = `[1, 0, 1, 2]`, with the function stored as
constant 1, and no `OpClosure` byte occurs.  (test_compiler.py expects
`OpClosure` for every function literal, so the code contradicts its own
tests.) -/
theorem C1_function_literal_compiles_to_opconstant_without_opclosure :
    (compileProgram funcLitProgram).map
      (fun c => (c.currentScope.instructions, c.constants)) =
      .ok ([1, 0, 1, 2],
           [Object.integer 24, Object.compiledFn ⟨[1, 0, 0, 23], 0, 0⟩])
    ∧ Opcode.OpClosure.byte = 29 ∧ (29 : Nat) ∉ [1, 0, 1, 2]
    ∧ Opcode.OpConstant.byte = 1 :=
  ⟨rfl, rfl, by decide, rfl⟩

set_option maxRecDepth 10000 in
/-- Claim C2: the LetStatement branch is claimed to pre-bind a function
literal's own name with `define_function_name` before compiling the value,
so that the recursive `fibonacci` program compiles and evaluates to 610.
The compiler's LetStatement branch compiles the value FIRST and defines
the name only afterwards, so the self-reference does not resolve and
compilation aborts with `Undefined variable: fibonacci` (the program of
test_vm.py's `test_recursive_fibonacci`, which expects 610). -/
theorem C2_recursive_fibonacci_fails_to_compile :
    compileProgram fibonacciProgram =
      .error (.compilerError "Undefined variable: fibonacci") := by
  simp only [compileProgram, fibonacciProgram, compileStmtList, compileStmt, compileExpr,
    compileExprList, Compiler.new, Compiler.enterScope, Compiler.emit, Compiler.addInstruction,
    Compiler.addConstant, Compiler.setLastInstruction, Compiler.currentScope,
    Compiler.setCurrentScope, Compiler.lastInstructionIs, Compiler.removeLastPop,
    Compiler.changeOperand, Compiler.replaceInstruction, Compiler.replaceLastPopWithReturn,
    Compiler.leaveScope, Compiler.loadSymbol, SymbolTable.define, SymbolTable.defineBuiltin,
    SymbolTable.resolve, SymbolTable.numDefinitions, storeSet, storeGet, make,
    Opcode.operandWidths, Opcode.byte, Opcode.decode, toBytesBE, builtinNames, emptyScope,
    GlobalScope, LocalScope, BuiltinScope, FreeScope, FunctionScope, List.foldl]
  rfl

/-- Claim C3: `OpCall` is claimed to accept a Closure or Builtin callee
and otherwise abort with `calling non-function/non-closure`.
`call_function` accepts only a CompiledFunction: a Builtin callee (here
the `len` builtin below the arguments, sp=1, n=0) is rejected with the
runtime error `calling non-function` — the builtin is never applied, and
the message differs from the claimed one.  (test_vm.py's
`test_builtin_functions` expects builtin calls to succeed in the VM.) -/
theorem C3_builtin_callee_rejected_as_calling_non_function :
    VirtualMachine.callFunction
      ⟨[], [], [some (.builtin "len")], 1, [], 1⟩ 0 =
      .error (.vmError "calling non-function")
    ∧ "calling non-function" ≠ "calling non-function/non-closure" :=
  ⟨rfl, by decide⟩

/-- Claim C4 counterexample: OpDiv is claimed to push the
truncation-toward-zero quotient when an operand is negative.  Executing
OpDiv on -7 and 2 pushes IntegerObject(-4) (Python `//` floors), while
truncation toward zero gives -3. -/
theorem C4_opdiv_floors_negative_counterexample :
    VirtualMachine.executeBinaryIntegerOperation ⟨[], [], [none], 0, [], 1⟩ .OpDiv (-7) 2 =
      .ok ⟨[], [], [some (.integer (-4))], 1, [], 1⟩
    ∧ Int.tdiv (-7) 2 = -3
    ∧ (-4 : Int) ≠ -3 :=
  ⟨rfl, by decide, by decide⟩

/-- Claim C4 amended: for every nonzero divisor, OpDiv pushes the FLOOR
of a/b (Python `//`) — which coincides with truncation toward zero when
both operands are non-negative, but floors (does not truncate) when an
operand is negative. -/
theorem C4_opdiv_always_pushes_floor_quotient
    (vm : VirtualMachine) (l r : Int) (hr : r ≠ 0) :
    VirtualMachine.executeBinaryIntegerOperation vm .OpDiv l r =
      vm.push (some (.integer (l.fdiv r)))
    ∧ (0 ≤ l → 0 ≤ r → l.fdiv r = l.tdiv r) := by
  constructor
  · unfold VirtualMachine.executeBinaryIntegerOperation
    simp [hr]
  · intro hl hr2
    exact Int.fdiv_eq_tdiv hl hr2

/-- Witness for the amended C4 theorem at vm with empty stack slot,
l = -7, r = 2. -/
theorem C4_opdiv_floor_witness :
    VirtualMachine.executeBinaryIntegerOperation ⟨[], [], [none], 0, [], 1⟩ .OpDiv (-7) 2 =
      VirtualMachine.push ⟨[], [], [none], 0, [], 1⟩ (some (.integer (Int.fdiv (-7) 2)))
    ∧ (0 ≤ (-7 : Int) → 0 ≤ (2 : Int) → Int.fdiv (-7) 2 = Int.tdiv (-7) 2) :=
  C4_opdiv_always_pushes_floor_quotient ⟨[], [], [none], 0, [], 1⟩ (-7) 2 (by decide)

/-- Claim C6: `first`, `last` and `rest` on an empty Array are claimed to
return the NULL singleton.  All three fall through to a bare
`return None`: they return host `None`, not `NullObject`.  (Both
test_vm.py and test_evaluator.py assert the NULL singleton for
`first([])` etc., so the code contradicts its own tests.) -/
theorem C6_empty_array_builtins_return_host_none :
    monkeyFirst [Object.array []] = none
    ∧ monkeyLast [Object.array []] = none
    ∧ monkeyRest [Object.array []] = none
    ∧ (none : Option Object) ≠ some Object.null :=
  ⟨rfl, rfl, rfl, by simp⟩

/-- Claim C5: resolving, in a table with an outer, a name not bound
locally: a Global/Builtin outer result passes through unchanged; a
Local/Free one is promoted — the outer symbol is appended to
`free_symbols` and a new Free symbol indexed by its position is returned
— and a second `resolve` on the resulting table returns the cached Free
symbol without growing `free_symbols` again. -/
theorem C5_resolve_promotes_and_caches_free
    (o o' : SymbolTable) (s : List (String × Symbol)) (n : Nat) (f : List Symbol)
    (name : String) (sym : Symbol)
    (hlocal : storeGet s name = none)
    (houter : o.resolve name = (some sym, o'))
    (hname : sym.name = name) :
    ((sym.scope = GlobalScope ∨ sym.scope = BuiltinScope) →
      (SymbolTable.child o s n f).resolve name = (some sym, .child o' s n f))
    ∧ (sym.scope ≠ GlobalScope → sym.scope ≠ BuiltinScope →
      ((SymbolTable.child o s n f).resolve name =
        (some ⟨name, FreeScope, f.length⟩,
         .child o' (storeSet s name ⟨name, FreeScope, f.length⟩) n (f ++ [sym]))
      ∧ (SymbolTable.child o' (storeSet s name ⟨name, FreeScope, f.length⟩) n
            (f ++ [sym])).resolve name =
          (some ⟨name, FreeScope, f.length⟩,
           .child o' (storeSet s name ⟨name, FreeScope, f.length⟩) n (f ++ [sym]))
      ∧ (f ++ [sym]).length = f.length + 1)) := by
  constructor
  · intro hscope
    have hb : (sym.scope == GlobalScope || sym.scope == BuiltinScope) = true := by
      rcases hscope with h | h <;> simp [h]
    simp [SymbolTable.resolve, hlocal, houter, hb]
  · intro hg hbn
    have hb : (sym.scope == GlobalScope || sym.scope == BuiltinScope) = false := by
      simp [hg, hbn]
    refine ⟨?_, ?_, by simp⟩
    · simp [SymbolTable.resolve, hlocal, houter, hb, SymbolTable.defineFree, hname]
    · simp [SymbolTable.resolve, storeGet_storeSet]

/-- Witness for C5 at a two-level chain whose outer binds `a` as the
Local symbol (`a`, LOCAL, 0): both promotion conjuncts evaluated
concretely. -/
theorem C5_resolve_witness :
    ((SymbolTable.child
        (SymbolTable.child (.root [] 0 []) [("a", (⟨"a", LocalScope, 0⟩ : Symbol))] 1 [])
        [] 0 []).resolve "a" =
      (some (⟨"a", FreeScope, ([] : List Symbol).length⟩ : Symbol),
       SymbolTable.child
         (SymbolTable.child (.root [] 0 []) [("a", (⟨"a", LocalScope, 0⟩ : Symbol))] 1 [])
         (storeSet [] "a" (⟨"a", FreeScope, ([] : List Symbol).length⟩ : Symbol)) 0
         (([] : List Symbol) ++ [(⟨"a", LocalScope, 0⟩ : Symbol)])))
    ∧ ((SymbolTable.child
         (SymbolTable.child (.root [] 0 []) [("a", (⟨"a", LocalScope, 0⟩ : Symbol))] 1 [])
         (storeSet [] "a" (⟨"a", FreeScope, ([] : List Symbol).length⟩ : Symbol)) 0
         (([] : List Symbol) ++ [(⟨"a", LocalScope, 0⟩ : Symbol)])).resolve "a" =
      (some (⟨"a", FreeScope, ([] : List Symbol).length⟩ : Symbol),
       SymbolTable.child
         (SymbolTable.child (.root [] 0 []) [("a", (⟨"a", LocalScope, 0⟩ : Symbol))] 1 [])
         (storeSet [] "a" (⟨"a", FreeScope, ([] : List Symbol).length⟩ : Symbol)) 0
         (([] : List Symbol) ++ [(⟨"a", LocalScope, 0⟩ : Symbol)])))
    ∧ (([] : List Symbol) ++ [(⟨"a", LocalScope, 0⟩ : Symbol)]).length =
        ([] : List Symbol).length + 1 :=
  (C5_resolve_promotes_and_caches_free
      (SymbolTable.child (.root [] 0 []) [("a", (⟨"a", LocalScope, 0⟩ : Symbol))] 1 [])
      (SymbolTable.child (.root [] 0 []) [("a", (⟨"a", LocalScope, 0⟩ : Symbol))] 1 [])
      [] 0 [] "a" ⟨"a", LocalScope, 0⟩ rfl rfl rfl).2
    (by decide) (by decide)

/-- Claim C7 counterexample: an OpHash build with a non-hashable key is
claimed to produce the runtime error `unusable as hash key`.  Building a
hash from a stack holding an Array key raises an uncaught TypeError from
the dict assignment instead — not a VmError at all, let alone that
message. -/
theorem C7_vm_hash_literal_unhashable_key_typeerror :
    VirtualMachine.buildHash
      ⟨[], [], [some (.array []), some (.integer 1)], 2, [], 1⟩ 0 2 =
      .error (.hostError "TypeError")
    ∧ Fault.hostError "TypeError" ≠ Fault.vmError "unusable as hash key" :=
  ⟨rfl, by decide⟩

/-- Claim C7 amended: only the tree-walker's hash INDEX expression checks
hashability and produces the ErrorObject `unusable as hash key: <type>`;
a non-hashable key in a hash literal (VM `build_hash` and the
tree-walker's literal loop alike) or in the VM's hash index raises an
uncaught host TypeError instead. -/
theorem C7_unusable_hash_key_only_in_treewalker_index
    (pairs rest : List (Object × Object)) (key v : Object) (vm : VirtualMachine)
    (h : hashable key = false) :
    evaluateHashIndexExpression pairs key =
      .error ("unusable as hash key: " ++ objtypeStr key)
    ∧ pyDictSet pairs key v = .error (.hostError "TypeError")
    ∧ vm.executeHashIndex pairs (some key) = .error (.hostError "TypeError")
    ∧ evaluateHashLiteralPairs ((key, v) :: rest) = .error (.hostError "TypeError") := by
  refine ⟨?_, ?_, ?_, ?_⟩
  · simp [evaluateHashIndexExpression, h]
  · simp [pyDictSet, h]
  · simp [VirtualMachine.executeHashIndex, pyDictGet, h, Bind.bind, Except.bind]
  · simp [evaluateHashLiteralPairs, evaluateHashLiteralPairs.go, pyDictSet, h,
      Bind.bind, Except.bind]

/-- Witness for the amended C7 theorem at the Array key `[]`. -/
theorem C7_unusable_hash_key_witness :
    evaluateHashIndexExpression [] (.array []) =
      .error ("unusable as hash key: " ++ objtypeStr (.array []))
    ∧ pyDictSet [] (.array []) (.integer 1) = .error (.hostError "TypeError")
    ∧ VirtualMachine.executeHashIndex ⟨[], [], [], 0, [], 1⟩ [] (some (.array [])) =
      .error (.hostError "TypeError")
    ∧ evaluateHashLiteralPairs [((.array []), (.integer 1))] =
      .error (.hostError "TypeError") :=
  C7_unusable_hash_key_only_in_treewalker_index [] [] (.array []) (.integer 1)
    ⟨[], [], [], 0, [], 1⟩ (by decide)

/-- Claim C8: on a root (outer-less) table, `define_function_name('a')`
followed by `define('a')` overwrites the store entry, and `resolve('a')`
returns the Global symbol produced by `define` (index =
`num_definitions` at definition time). -/
theorem C8_define_shadows_function_name
    (s : List (String × Symbol)) (n : Nat) (f : List Symbol) :
    (((SymbolTable.root s n f).defineFunctionName "a").2.define "a").1 =
      ⟨"a", GlobalScope, n⟩
    ∧ ((((SymbolTable.root s n f).defineFunctionName "a").2.define "a").2).resolve "a" =
      (some ⟨"a", GlobalScope, n⟩,
       (((SymbolTable.root s n f).defineFunctionName "a").2.define "a").2) := by
  constructor
  · rfl
  · show SymbolTable.resolve _ "a" = _
    unfold SymbolTable.defineFunctionName SymbolTable.define SymbolTable.resolve
    rw [storeGet_storeSet]

/-- Claim C9 counterexample: pushing a frame with all 1024 slots
accounted for is claimed to surface the `stack overflow` runtime error;
instead the unguarded write `frames[frames_index] = f` raises an
uncaught IndexError. -/
theorem C9_frame_overflow_is_indexerror_not_stack_overflow :
    VirtualMachine.pushFrame
      ⟨[], [], [], 0, List.replicate 1024 none, 1024⟩ ⟨⟨[], 0, 0⟩, -1, 0⟩ =
      .error (.hostError "IndexError")
    ∧ Fault.hostError "IndexError" ≠ Fault.vmError "stack overflow" := by
  refine ⟨?_, by decide⟩
  have hset : pySet (List.replicate (1024 : Nat) (none : Option Frame)) 1024
      (some ⟨⟨[], 0, 0⟩, -1, 0⟩) = .error (.hostError "IndexError") :=
    pySet_oob _ _ _ (by rw [List.length_replicate]; omega)
  simp only [VirtualMachine.pushFrame, hset]
  rfl

/-- Claim C9 amended: only the operand stack is guarded — `push` with
`sp ≥ 2048` returns the runtime error `stack overflow` without writing,
but `push_frame` has no capacity check: with the frame slots full the
raw write raises a host IndexError, not the `stack overflow` runtime
error. -/
theorem C9_stack_guarded_frames_unguarded
    (vm : VirtualMachine) (o : Option Object) (fr : Frame)
    (hsp : (STACK_SIZE : Int) ≤ vm.sp)
    (hfr : (vm.frames.length : Int) ≤ vm.framesIndex) :
    vm.push o = .error (.vmError "stack overflow")
    ∧ vm.pushFrame fr = .error (.hostError "IndexError") := by
  constructor
  · unfold VirtualMachine.push
    rw [if_pos (show vm.sp ≥ (STACK_SIZE : Int) from hsp)]
  · unfold VirtualMachine.pushFrame pySet
    rw [if_neg (by omega), if_neg (by omega)]
    rfl

/-- Witness for the amended C9 theorem: sp = 2048 on the operand stack,
frames list full (length 0, index 0). -/
theorem C9_overflow_witness :
    VirtualMachine.push ⟨[], [], [], 2048, [], 0⟩ none =
      .error (.vmError "stack overflow")
    ∧ VirtualMachine.pushFrame ⟨[], [], [], 2048, [], 0⟩ ⟨⟨[], 0, 0⟩, -1, 0⟩ =
      .error (.hostError "IndexError") :=
  C9_stack_guarded_frames_unguarded ⟨[], [], [], 2048, [], 0⟩ none ⟨⟨[], 0, 0⟩, -1, 0⟩
    (by decide) (by decide)

/-- A successful `setCurrentFrame` only replaces the frames list. -/
theorem setCurrentFrame_ok (vm vm' : VirtualMachine) (f : Frame)
    (h : vm.setCurrentFrame f = .ok vm') :
    ∃ frames', pySet vm.frames (vm.framesIndex - 1) (some f) = .ok frames'
      ∧ vm' = { vm with frames := frames' } := by
  unfold VirtualMachine.setCurrentFrame at h
  cases hpy : pySet vm.frames (vm.framesIndex - 1) (some f) with
  | error e => rw [hpy] at h; simp [Bind.bind, Except.bind] at h
  | ok frames' =>
      rw [hpy] at h
      simp only [Bind.bind, Except.bind, Except.ok.injEq] at h
      exact ⟨frames', rfl, h.symm⟩

/-- Claim C10: the dispatch chain has no default error case; for an
instruction byte in {0x1B OpGetBuiltin, 0x1C OpGetFree, 0x1D OpClosure,
0x1E OpCurrentClosure} the iteration leaves stack, sp, globals, constants
and the frame count unchanged, returns no error, and advances `ip` by
exactly 1 — NOT past the operand bytes, so the next iteration fetches the
byte at `ip + 2` (the first operand byte) and decodes it as an opcode. -/
theorem C10_closure_opcodes_are_silent_noops
    (vm vm' : VirtualMachine) (f : Frame) (b : Nat)
    (hcf : vm.currentFrame = .ok f)
    (hcond : f.ip < (f.fn.instructions.length : Int) - 1)
    (hbyte : pyGet f.fn.instructions (f.ip + 1) = .ok b)
    (hop : b = 27 ∨ b = 28 ∨ b = 29 ∨ b = 30)
    (hset : vm.setCurrentFrame { f with ip := f.ip + 1 } = .ok vm') :
    VirtualMachine.step vm = .next vm'
    ∧ vm'.stack = vm.stack ∧ vm'.sp = vm.sp ∧ vm'.globals = vm.globals
    ∧ vm'.constants = vm.constants ∧ vm'.framesIndex = vm.framesIndex
    ∧ vm'.currentFrame = .ok { f with ip := f.ip + 1 } := by
  obtain ⟨frames', hpy, rfl⟩ := setCurrentFrame_ok vm vm' _ hset
  refine ⟨?_, rfl, rfl, rfl, rfl, rfl, ?_⟩
  · rcases hop with rfl | rfl | rfl | rfl <;>
      simp only [VirtualMachine.step, hcf, if_pos hcond, hset, hbyte] <;> rfl
  · simp only [VirtualMachine.currentFrame, pyGet_pySet _ _ _ _ hpy]
    rfl

/-- Witness for C10: a one-frame VM whose next byte is 0x1B
(OpGetBuiltin): the step is a pure no-op apart from `ip`. -/
theorem C10_noop_witness :
    VirtualMachine.step ⟨[], [], [], 0, [some ⟨⟨[27, 5], 0, 0⟩, -1, 0⟩], 1⟩ =
      .next ⟨[], [], [], 0, [some ⟨⟨[27, 5], 0, 0⟩, (-1 : Int) + 1, 0⟩], 1⟩
    ∧ ([] : List (Option Object)) = [] ∧ (0 : Int) = 0
    ∧ ([] : List (Option Object)) = [] ∧ ([] : List Object) = [] ∧ (1 : Int) = 1
    ∧ VirtualMachine.currentFrame
        ⟨[], [], [], 0, [some ⟨⟨[27, 5], 0, 0⟩, (-1 : Int) + 1, 0⟩], 1⟩ =
        .ok ⟨⟨[27, 5], 0, 0⟩, (-1 : Int) + 1, 0⟩ := by
  have h := C10_closure_opcodes_are_silent_noops
    ⟨[], [], [], 0, [some ⟨⟨[27, 5], 0, 0⟩, -1, 0⟩], 1⟩
    ⟨[], [], [], 0, [some ⟨⟨[27, 5], 0, 0⟩, (-1 : Int) + 1, 0⟩], 1⟩
    ⟨⟨[27, 5], 0, 0⟩, -1, 0⟩ 27
    rfl (by decide) rfl (Or.inl rfl) rfl
  exact h

end Monkey
